import Mathlib

/-!
Shallow embedding of `google_sheets.py` (the single source file of the
repository): the `GoogleSheetsHandler` class, its three methods
`find_user_spreadsheet`, `get_or_create_user_spreadsheet`,
`create_sheet_for_query`, and the module-level entry point
`create_google_sheet`.

Remote Google API calls are modelled by a `Backend` oracle: each remote
operation either succeeds with a result or raises an `HttpError`
(represented by `Except.error ()`).  Every function additionally returns
the list of remote calls it issued, in order, so that call-count and
call-order properties can be stated.  Python values that flow through the
row-formatting code are modelled by `PyVal`; the Python slip
`str(x).ljust` (a bound method, never called) is modelled by the
`PyVal.boundMethod` constructor, and `re.findall` raises `TypeError` on a
non-string argument exactly as Python does.
-/

set_option autoImplicit false

namespace GoogleSheets

/-- A single-quote character, used in the Drive search query
`name = 'Results for {username}'` and in Python list reprs. -/
def sq : String := String.mk [Char.ofNat 39]

/-- Python values reaching the formatting code: strings, lists of strings
(the scraped e-mail lists), and bound methods (produced by the
uncalled `str(...).ljust` in the dict branch).  The Python repr of a bound
method contains the object address, which is elided here; no claim
depends on it because no such value ever reaches an emitted row. -/
inductive PyVal where
  | str (s : String)
  | strList (xs : List String)
  | boundMethod (recv : String) (meth : String)
  deriving DecidableEq, Repr

/-- Python `str(x)` for the values above (list repr simplified to
unescaped single-quoted elements, enough for the e-mail strings that
occur; the bound-method repr elides the address). -/
def pyStr : PyVal → String
  | .str s => s
  | .strList xs =>
      "[" ++ String.intercalate ", " (xs.map (fun x => sq ++ x ++ sq)) ++ "]"
  | .boundMethod _ m => "<built-in method " ++ m ++ " of str object>"

/-- Python `s.ljust(w)`: pad on the right with spaces to width `w`
(no-op when `w ≤ s.length`, as in the source's `str(x).ljust(len(str(x)))`). -/
def ljust (s : String) (w : Nat) : String :=
  s ++ String.mk (List.replicate (w - s.length) ' ')

/-- The source's `str(x).ljust(len(str(x)))` applied to one field. -/
def strLjustSelf (x : PyVal) : String :=
  ljust (pyStr x) (pyStr x).length

/-- The source's `', '.join(emails) if isinstance(emails, list) else str(emails)`. -/
def joinEmails : PyVal → String
  | .strList xs => String.intercalate ", " xs
  | v => pyStr v

/-- `''.join(re.findall(r'\d', s))` for an ASCII string: the decimal
digits of `s`, in order. -/
def digitsOf (s : String) : String :=
  String.mk (s.toList.filter Char.isDigit)

/-- The WhatsApp-link expression of the dict branch (line 167 of the
source): `f"https://wa.me/{''.join(re.findall(r'\d', phone))}"` applied
to a phone string. -/
def derive_whatsapp_link (phone : String) : String :=
  "https://wa.me/" ++ digitsOf phone

/-- Python exceptions that the formatting code can raise. -/
inductive PyError where
  | httpError
  | valueError (msg : String)
  | typeError (msg : String)
  deriving DecidableEq, Repr

/-- `re.findall(r'\d', x)` joined: succeeds on a string, raises
`TypeError` on any other value (in particular on a bound method). -/
def reFindAllDigits : PyVal → Except PyError String
  | .str s => .ok (digitsOf s)
  | _ => .error (.typeError "expected string or bytes-like object")

/-- The `company_data` component of one `(source, data)` record: a tuple,
a dict, or anything else (the skip-and-warn shape). -/
inductive CompanyData where
  | tuple (fields : List PyVal)
  | dict (entries : List (String × PyVal))
  | other
  deriving DecidableEq, Repr

/-- Python `d.get(key, 'N/A')` on a dict modelled as an association list
(first binding wins; literal dicts in scope have no duplicate keys). -/
def dictGet (entries : List (String × PyVal)) (key : String) : PyVal :=
  match entries.find? (fun e => e.1 == key) with
  | some e => e.2
  | none => .str "N/A"

/-- `company_data + ('N/A',) * (n - len(company_data))`: right-pad with
`'N/A'` up to `n` fields (Python's negative tuple repetition is empty,
as is `List.replicate` at a truncated `Nat` subtraction). -/
def padTuple (fields : List PyVal) (n : Nat) : List PyVal :=
  fields ++ List.replicate (n - fields.length) (.str "N/A")

/-- The dict (legacy) branch of `create_sheet_for_query`, lines 161-176:
each field is `str(company_data.get(...)).ljust` — the bound method
itself, the call being missing in the source — and line 167 then passes
the bound method `phone` to `re.findall`, which raises `TypeError`. -/
def processDict (source : String) (entries : List (String × PyVal)) :
    Except PyError (List PyVal) := do
  let name := PyVal.boundMethod (pyStr (dictGet entries "name")) "ljust"
  let website := PyVal.boundMethod (pyStr (dictGet entries "site")) "ljust"
  let emails := PyVal.boundMethod (pyStr (dictGet entries "email")) "ljust"
  let phone := PyVal.boundMethod (pyStr (dictGet entries "phone")) "ljust"
  let digits ← reFindAllDigits phone
  let _wa_phone := "https://wa.me/" ++ digits
  let location := PyVal.boundMethod (pyStr (dictGet entries "location")) "ljust"
  let reviews := PyVal.boundMethod (pyStr (dictGet entries "reviews")) "ljust"
  let verify := PyVal.boundMethod (pyStr (dictGet entries "verification")) "ljust"
  if source == "Google Maps" then
    .ok [.str source, name, website, emails, phone, location, .str "N/A",
         reviews, verify]
  else
    let rating := PyVal.str (pyStr (dictGet entries "rating"))
    .ok [.str source, name, website, emails, phone, location, rating,
         reviews, verify]

/-- One iteration of the record loop of `create_sheet_for_query`
(lines 133-182): `.ok (some row)` when a row is appended, `.ok none`
when the record is skipped with a warning, `.error` when the iteration
raises (tuple unpacking `ValueError`, dict-branch `TypeError`). -/
def processRecord (source : String) (cd : CompanyData) :
    Except PyError (Option (List PyVal)) :=
  match cd with
  | .tuple fields =>
    if source == "TrustPilot" then
      match padTuple fields 8 with
      | [name, website, emails, phone, location, rating, reviews, verify] =>
        let emails_str := PyVal.str (joinEmails emails)
        .ok (some [.str source, .str (strLjustSelf name),
          .str (strLjustSelf website), .str (strLjustSelf emails_str),
          .str (strLjustSelf phone), .str (strLjustSelf location),
          .str (strLjustSelf rating), .str (strLjustSelf reviews),
          .str (strLjustSelf verify)])
      | _ => .error (.valueError "too many values to unpack")
    else if source == "Google Maps" then
      match padTuple fields 6 with
      | [name, website, emails, phone, location, reviews] =>
        let emails_str := PyVal.str (joinEmails emails)
        .ok (some [.str source, .str (strLjustSelf name),
          .str (strLjustSelf website), .str (strLjustSelf emails_str),
          .str (strLjustSelf phone), .str (strLjustSelf location),
          .str "N/A", .str (strLjustSelf reviews), .str "N/A"])
      | _ => .error (.valueError "too many values to unpack")
    else
      .ok none
  | .dict entries => (processDict source entries).map some
  | .other => .ok none

/-- The header row of line 128-129 (nine columns, no WhatsApp column). -/
def headers : List PyVal :=
  [.str "Source", .str "Company Name", .str "Website", .str "Email",
   .str "Phone", .str "Location", .str "Rating", .str "Reviews",
   .str "Verification"]

/-- The record loop: build the data rows in input order, skipping
unrecognized shapes, aborting on the first raised exception. -/
def buildRows : List (String × CompanyData) → Except PyError (List (List PyVal))
  | [] => .ok []
  | r :: rest => do
    let o ← processRecord r.1 r.2
    let rows ← buildRows rest
    match o with
    | some row => .ok (row :: rows)
    | none => .ok rows

/-- `query_details` dict: each key read with default `"Unknown"`. -/
structure QueryDetails where
  category : Option String
  country : Option String
  city : Option String
  deriving DecidableEq, Repr

/-- `query_details.get(key, "Unknown")`. -/
def optOr (o : Option String) (d : String) : String :=
  o.getD d

/-- A wall-clock instant, as the fields `strftime` reads. -/
structure DateTime where
  year : Nat
  month : Nat
  day : Nat
  hour : Nat
  minute : Nat
  second : Nat
  deriving DecidableEq, Repr

/-- Two-digit zero padding, as `%m %d %H %M %S` format. -/
def pad2 (n : Nat) : String :=
  if n < 10 then "0" ++ toString n else toString n

/-- Four-digit zero padding, as `%Y` formats years. -/
def pad4 (n : Nat) : String :=
  if n < 10 then "000" ++ toString n
  else if n < 100 then "00" ++ toString n
  else if n < 1000 then "0" ++ toString n
  else toString n

/-- `datetime.now().strftime("%Y-%m-%d_%H-%M-%S")` at instant `t`. -/
def strftime (t : DateTime) : String :=
  pad4 t.year ++ "-" ++ pad2 t.month ++ "-" ++ pad2 t.day ++ "_" ++
    pad2 t.hour ++ "-" ++ pad2 t.minute ++ "-" ++ pad2 t.second

/-- Python string slicing `s[:n]`: the first `n` characters of `s` (all
of `s` when it is shorter). -/
def strTake (s : String) (n : Nat) : String :=
  String.mk (s.toList.take n)

/-- Lines 100-106: `f"{category}-{country}-{city}-{date_str}"[:50]`. -/
def mkSheetName (qd : QueryDetails) (now : DateTime) : String :=
  strTake (optOr qd.category "Unknown" ++ "-" ++ optOr qd.country "Unknown" ++
    "-" ++ optOr qd.city "Unknown" ++ "-" ++ strftime now) 50

/-- One remote API call, with the arguments the source passes. -/
inductive RemoteCall where
  | filesList (query : String)
  | spreadsheetsCreate (title : String)
  | permissionsCreate (fileId : String)
  | batchUpdate (spreadsheetId : String) (sheetTitle : String)
  | valuesUpdate (spreadsheetId : String) (range : String)
      (values : List (List PyVal))
  deriving DecidableEq, Repr

/-- Oracle for the remote Google services: each operation either returns
a result or raises `HttpError` (`Except.error ()`). -/
structure Backend where
  listFiles : String → Except Unit (List String)
  createSpreadsheet : String → Except Unit String
  createPermission : String → Except Unit Unit
  batchUpdateAddSheet : String → String → Except Unit Unit
  valuesUpdate : String → String → List (List PyVal) → Except Unit Unit

/-- The Drive query string of line 35: `name = 'Results for {username}'`. -/
def searchQuery (username : String) : String :=
  "name = " ++ sq ++ "Results for " ++ username ++ sq

/-- The spreadsheet title of lines 35 and 66: `Results for {username}`. -/
def title (username : String) : String :=
  "Results for " ++ username

/-- The `user_spreadsheets` cache, `user_id → spreadsheet_id`.  Python
dict assignment is modelled by head insertion with first-match lookup
(observationally an overwrite). -/
def lookupCache (cache : List (Nat × String)) (uid : Nat) : Option String :=
  match cache.find? (fun e => e.1 == uid) with
  | some e => some e.2
  | none => none

/-- `self.user_spreadsheets[user_id] = sid`. -/
def insertCache (cache : List (Nat × String)) (uid : Nat) (sid : String) :
    List (Nat × String) :=
  (uid, sid) :: cache

/-- `find_user_spreadsheet` (lines 31-49): one Drive files-list call;
returns the first match's id, `none` when nothing matches, and — because
the `except HttpError` clause logs and returns `None` — also `none` when
the call raises. -/
def find_user_spreadsheet (be : Backend) (username : String) :
    Option String × List RemoteCall :=
  let q := searchQuery username
  match be.listFiles q with
  | .error _ => (none, [.filesList q])
  | .ok files => (files.head?, [.filesList q])

/-- `get_or_create_user_spreadsheet` (lines 51-94).  Returns the result
(`Except.error ()` when an `HttpError` propagates), the cache after the
call, and the remote calls issued.  Note that the new id is cached
(line 76) before the permission grant (line 84). -/
def get_or_create_user_spreadsheet (be : Backend)
    (cache : List (Nat × String)) (user_id : Nat) (username : String) :
    Except Unit String × List (Nat × String) × List RemoteCall :=
  match lookupCache cache user_id with
  | some sid => (.ok sid, cache, [])
  | none =>
    match find_user_spreadsheet be username with
    | (some sid, calls1) => (.ok sid, insertCache cache user_id sid, calls1)
    | (none, calls1) =>
      match be.createSpreadsheet (title username) with
      | .error _ =>
          (.error (), cache, calls1 ++ [.spreadsheetsCreate (title username)])
      | .ok sid =>
        let cache2 := insertCache cache user_id sid
        match be.createPermission sid with
        | .error _ =>
            (.error (), cache2,
             calls1 ++ [.spreadsheetsCreate (title username),
                        .permissionsCreate sid])
        | .ok _ =>
            (.ok sid, cache2,
             calls1 ++ [.spreadsheetsCreate (title username),
                        .permissionsCreate sid])

/-- `create_sheet_for_query` (lines 96-201): derive the sheet name, issue
the addSheet batchUpdate, build the rows, issue the single values.update
over `{sheet_name}!A1:I{len(values)}`.  `HttpError` is logged and
re-raised; `ValueError` / `TypeError` from the loop propagate uncaught. -/
def create_sheet_for_query (be : Backend) (now : DateTime)
    (spreadsheet_id : String) (qd : QueryDetails)
    (data : List (String × CompanyData)) :
    Except PyError Unit × List RemoteCall :=
  let sheet_name := mkSheetName qd now
  match be.batchUpdateAddSheet spreadsheet_id sheet_name with
  | .error _ => (.error .httpError, [.batchUpdate spreadsheet_id sheet_name])
  | .ok _ =>
    match buildRows data with
    | .error e => (.error e, [.batchUpdate spreadsheet_id sheet_name])
    | .ok rows =>
      let values := headers :: rows
      let range_name := sheet_name ++ "!A1:I" ++ toString values.length
      match be.valuesUpdate spreadsheet_id range_name values with
      | .error _ =>
          (.error .httpError,
           [.batchUpdate spreadsheet_id sheet_name,
            .valuesUpdate spreadsheet_id range_name values])
      | .ok _ =>
          (.ok (),
           [.batchUpdate spreadsheet_id sheet_name,
            .valuesUpdate spreadsheet_id range_name values])

/-- `message.from_user`: numeric id and optional display name. -/
structure FromUser where
  id : Nat
  username : Option String
  deriving DecidableEq, Repr

/-- Python `username or str(id)`: `None` and the empty string both fall
back to the stringified id. -/
def usernameOrId (u : FromUser) : String :=
  match u.username with
  | some s => if s.isEmpty then toString u.id else s
  | none => toString u.id

/-- `create_google_sheet` (lines 204-221): constructs a FRESH
`GoogleSheetsHandler` — so an empty `user_spreadsheets` cache — on every
call, resolves the user's spreadsheet, then creates the query sheet.
Any exception is logged and re-raised. -/
def create_google_sheet (be : Backend) (now : DateTime) (user : FromUser)
    (data : List (String × CompanyData)) (qd : QueryDetails) :
    Except PyError String × List RemoteCall :=
  let username := usernameOrId user
  match get_or_create_user_spreadsheet be [] user.id username with
  | (.error _, _, calls1) => (.error .httpError, calls1)
  | (.ok sid, _, calls1) =>
    match create_sheet_for_query be now sid qd data with
    | (.error e, calls2) => (.error e, calls1 ++ calls2)
    | (.ok _, calls2) => (.ok sid, calls1 ++ calls2)

end GoogleSheets

namespace GoogleSheets

/-! ### Shared fixtures and helper lemmas -/

/-- A backend on which every remote call succeeds and no spreadsheet
with the searched title exists yet. -/
def okBackend : Backend :=
  ⟨fun _ => .ok [], fun _ => .ok "NEWSID", fun _ => .ok (),
   fun _ _ => .ok (), fun _ _ _ => .ok ()⟩

/-- A fixed instant, 2024-01-02 03:04:05. -/
def t0 : DateTime := ⟨2024, 1, 2, 3, 4, 5⟩

/-- Fixed query details. -/
def qd0 : QueryDetails := ⟨some "Spa", some "UK", some "London"⟩

theorem ljust_self (s : String) : ljust s s.length = s := by
  unfold ljust
  rw [Nat.sub_self]
  simp

theorem strLjustSelf_eq (x : PyVal) : strLjustSelf x = pyStr x := by
  unfold strLjustSelf
  exact ljust_self (pyStr x)

/-- The TrustPilot tuple branch on an exact 8-field tuple: the emitted
row is the source tag followed by the eight stringified fields, the
e-mail field joined, each field passed through the identity
`ljust(len)`. -/
theorem processTP_eight (n w e p l ra rv v : PyVal) :
    processRecord "TrustPilot" (.tuple [n, w, e, p, l, ra, rv, v]) =
      .ok (some [.str "TrustPilot", .str (pyStr n), .str (pyStr w),
        .str (joinEmails e), .str (pyStr p), .str (pyStr l),
        .str (pyStr ra), .str (pyStr rv), .str (pyStr v)]) := by
  show Except.ok (some [PyVal.str "TrustPilot", .str (strLjustSelf n),
      .str (strLjustSelf w), .str (strLjustSelf (PyVal.str (joinEmails e))),
      .str (strLjustSelf p), .str (strLjustSelf l), .str (strLjustSelf ra),
      .str (strLjustSelf rv), .str (strLjustSelf v)]) = _
  simp only [strLjustSelf_eq, pyStr]

/-! ### C1 -/

/-- The TrustPilot record from the spec's example. -/
def acmeData : CompanyData :=
  .tuple [.str "Acme", .str "acme.com", .strList ["a@x.com", "b@x.com"],
    .str "555-1234567", .str "NYC", .str "4.5", .str "120", .str "Verified"]

/-- The row the code actually emits for `acmeData`. -/
def acmeRow : List PyVal :=
  [.str "TrustPilot", .str "Acme", .str "acme.com",
   .str "a@x.com, b@x.com", .str "555-1234567", .str "NYC", .str "4.5",
   .str "120", .str "Verified"]

/-- C1 counterexample: on the spec's own example record the code emits a
row of 9 fields — Source, Company Name, Website, Email, Phone, Location,
Rating, Reviews, Verification — not 10, and no WhatsApp link
`https://wa.me/5551234567` appears anywhere in the row (the link code is
commented out in the tuple branch). -/
theorem c1_counterexample :
    processRecord "TrustPilot" acmeData = .ok (some acmeRow) ∧
    acmeRow.length = 9 ∧
    PyVal.str "https://wa.me/5551234567" ∉ acmeRow :=
  ⟨rfl, rfl, by decide⟩

/-- C1 amended: a TrustPilot 8-field tuple record yields a row of exactly
9 fields in the order Source, Company Name, Website, Email, Phone,
Location, Rating, Reviews, Verification — with no WhatsApp Link column —
and the spec's example record yields e-mail field
`"a@x.com, b@x.com"`. -/
theorem c1_nine_field_row :
    (∀ n w e p l ra rv v : PyVal,
      processRecord "TrustPilot" (.tuple [n, w, e, p, l, ra, rv, v]) =
        .ok (some [.str "TrustPilot", .str (pyStr n), .str (pyStr w),
          .str (joinEmails e), .str (pyStr p), .str (pyStr l),
          .str (pyStr ra), .str (pyStr rv), .str (pyStr v)])) ∧
    processRecord "TrustPilot" acmeData = .ok (some acmeRow) ∧
    acmeRow.get? 3 = some (.str "a@x.com, b@x.com") ∧
    acmeRow.length = 9 :=
  ⟨processTP_eight, rfl, rfl, rfl⟩

/-! ### C2 -/

/-- C2 counterexample: the only WhatsApp-link expression alive in the
code (dict branch, line 167) is unconditional — `"12"` yields
`"https://wa.me/12"`, not `"N/A"`, and `"N/A"` yields
`"https://wa.me/"` with the digits extracted as from any other string. -/
theorem c2_counterexample :
    derive_whatsapp_link "12" = "https://wa.me/12" ∧
    derive_whatsapp_link "N/A" = "https://wa.me/" ∧
    ("https://wa.me/12" : String) ≠ "N/A" :=
  ⟨rfl, rfl, by decide⟩

/-- C2 amended: the derivation extracts all decimal digits and produces
`https://wa.me/{digits}` unconditionally — there is no minimum-digit
threshold and no special case for `"N/A"` (which yields
`"https://wa.me/"`); `"+1 (555) 123-4567"` still maps to
`"https://wa.me/15551234567"`. -/
theorem c2_link_unconditional :
    (∀ phone : String, derive_whatsapp_link phone =
      "https://wa.me/" ++ String.mk (phone.toList.filter Char.isDigit)) ∧
    derive_whatsapp_link "+1 (555) 123-4567" = "https://wa.me/15551234567" ∧
    derive_whatsapp_link "N/A" = "https://wa.me/" ∧
    derive_whatsapp_link "12" = "https://wa.me/12" :=
  ⟨fun _ => rfl, rfl, rfl, rfl⟩

/-! ### C3 -/

/-- A legacy-shaped (dict) record. -/
def c3Entries : List (String × PyVal) :=
  [("name", .str "Acme"), ("phone", .str "+1 555 123 4567")]

/-- C3: the dict branch never emits a row.  Every field is bound to
`str(...).ljust` — the bound method, the call being missing — and
`re.findall(r'\d', phone)` on that bound method raises `TypeError`, so
ANY record whose data is a mapping aborts the whole export: nothing is
written, contrary to the read-with-defaults-and-continue behavior the
spec describes. -/
theorem c3_dict_branch_raises :
    (∀ (src : String) (entries : List (String × PyVal)),
      processDict src entries =
        .error (.typeError "expected string or bytes-like object")) ∧
    processRecord "TrustPilot" (.dict c3Entries) =
      .error (.typeError "expected string or bytes-like object") ∧
    (create_sheet_for_query okBackend t0 "SID" qd0
        [("TrustPilot", .dict c3Entries)]).1 =
      .error (.typeError "expected string or bytes-like object") ∧
    (create_sheet_for_query okBackend t0 "SID" qd0
        [("TrustPilot", .dict c3Entries)]).2 =
      [.batchUpdate "SID" (mkSheetName qd0 t0)] :=
  ⟨fun _ _ => rfl, rfl, rfl, rfl⟩

end GoogleSheets

namespace GoogleSheets

/-! ### C4 -/

/-- A backend whose Drive files-list call always raises `HttpError`,
while every other remote call succeeds. -/
def searchFailBackend : Backend :=
  ⟨fun _ => .error (), fun _ => .ok "NEW1", fun _ => .ok (),
   fun _ _ => .ok (), fun _ _ _ => .ok ()⟩

/-- Replace only the files-list operation of a backend. -/
def withListFiles (be : Backend) (f : String → Except Unit (List String)) :
    Backend :=
  ⟨f, be.createSpreadsheet, be.createPermission, be.batchUpdateAddSheet,
   be.valuesUpdate⟩

/-- C4 counterexample: with a backend whose name-search call raises,
`get_or_create_user_spreadsheet` does NOT fail — it proceeds to create a
document and returns its id, the search error having been swallowed
inside `find_user_spreadsheet`. -/
theorem c4_counterexample :
    (get_or_create_user_spreadsheet searchFailBackend [] 1 "u").1 =
      .ok "NEW1" ∧
    (get_or_create_user_spreadsheet searchFailBackend [] 1 "u").2.2 =
      [.filesList (searchQuery "u"), .spreadsheetsCreate (title "u"),
       .permissionsCreate "NEW1"] :=
  ⟨rfl, rfl⟩

/-- C4 amended: when the remote name-search call errors, the error is
caught and logged inside `find_user_spreadsheet`, which returns `None`;
resolution then proceeds exactly as if the search had found nothing —
creating a document — and a backend error propagates only from the
create or permission-grant calls. -/
theorem c4_search_error_as_absent (be : Backend) (cache : List (Nat × String))
    (uid : Nat) (username : String)
    (h : be.listFiles (searchQuery username) = .error ()) :
    get_or_create_user_spreadsheet be cache uid username =
      get_or_create_user_spreadsheet (withListFiles be (fun _ => .ok []))
        cache uid username := by
  unfold get_or_create_user_spreadsheet find_user_spreadsheet withListFiles
  rcases hl : lookupCache cache uid with _ | sid <;> simp [hl, h]

/-- C4 witness: the amended equivalence evaluated on the concrete
search-failing backend. -/
theorem c4_witness :
    get_or_create_user_spreadsheet searchFailBackend [] 1 "u" =
      get_or_create_user_spreadsheet
        (withListFiles searchFailBackend (fun _ => .ok [])) [] 1 "u" :=
  c4_search_error_as_absent searchFailBackend [] 1 "u" rfl

/-! ### C5 -/

/-- A backend on which the search finds nothing, creation succeeds and
the permission grant raises. -/
def permFailBackend : Backend :=
  ⟨fun _ => .ok [], fun _ => .ok "NEW2", fun _ => .error (),
   fun _ _ => .ok (), fun _ _ _ => .ok ()⟩

/-- A backend on which the search finds nothing and creation raises. -/
def createFailBackend : Backend :=
  ⟨fun _ => .ok [], fun _ => .error (), fun _ => .ok (),
   fun _ _ => .ok (), fun _ _ _ => .ok ()⟩

/-- C5 counterexample: when the permission grant raises after a
successful create, the resolution fails with the backend error AND the
cache now holds the new entry `(7, "NEW2")` — the id is cached at
line 76, before the grant of line 84, so the failed resolution does
modify the index. -/
theorem c5_counterexample :
    (get_or_create_user_spreadsheet permFailBackend [] 7 "bob").1 =
      .error () ∧
    (get_or_create_user_spreadsheet permFailBackend [] 7 "bob").2.1 =
      [(7, "NEW2")] ∧
    ([(7, "NEW2")] : List (Nat × String)) ≠ [] :=
  ⟨rfl, rfl, by decide⟩

/-- C5 amended: when the create call itself errors, the cache is left
exactly as it was; but the new id is cached before the permission grant,
so when the grant errors after a successful create the entry for the
user remains inserted despite the `BackendError`. -/
theorem c5_cache_after_failure (be : Backend) (cache : List (Nat × String))
    (uid : Nat) (username : String)
    (hnc : lookupCache cache uid = none)
    (hs : be.listFiles (searchQuery username) = .ok []) :
    (be.createSpreadsheet (title username) = .error () →
      (get_or_create_user_spreadsheet be cache uid username).1 = .error () ∧
      (get_or_create_user_spreadsheet be cache uid username).2.1 = cache) ∧
    (∀ sid, be.createSpreadsheet (title username) = .ok sid →
      be.createPermission sid = .error () →
      (get_or_create_user_spreadsheet be cache uid username).1 = .error () ∧
      (get_or_create_user_spreadsheet be cache uid username).2.1 =
        insertCache cache uid sid) := by
  constructor
  · intro hc
    unfold get_or_create_user_spreadsheet find_user_spreadsheet
    simp [hnc, hs, hc]
  · intro sid hc hp
    unfold get_or_create_user_spreadsheet find_user_spreadsheet
    simp [hnc, hs, hc, hp]

/-- C5 witness: the amended statement evaluated on the two concrete
failing backends. -/
theorem c5_witness :
    ((get_or_create_user_spreadsheet createFailBackend [] 3 "eve").1 =
        .error () ∧
      (get_or_create_user_spreadsheet createFailBackend [] 3 "eve").2.1 =
        []) ∧
    (get_or_create_user_spreadsheet permFailBackend [] 7 "bob").2.1 =
      insertCache [] 7 "NEW2" :=
  ⟨(c5_cache_after_failure createFailBackend [] 3 "eve" rfl rfl).1 rfl,
   ((c5_cache_after_failure permFailBackend [] 7 "bob" rfl rfl).2 "NEW2"
      rfl rfl).2⟩

/-! ### C6 -/

/-- A backend on which the name search always finds the document
`EXIST1`. -/
def existingDocBackend : Backend :=
  ⟨fun _ => .ok ["EXIST1"], fun _ => .ok "NEWX", fun _ => .ok (),
   fun _ _ => .ok (), fun _ _ _ => .ok ()⟩

/-- The caller of the repeated exports. -/
def user5 : FromUser := ⟨5, some "kim"⟩

set_option maxRecDepth 4000

/-- C6 counterexample: `create_google_sheet` constructs a FRESH handler
— an empty `user_spreadsheets` cache — on every call, so every export
for user 5, in particular the second one in the same process, issues a
remote files-list search; its call trace is never the zero-remote-call
trace the claim promises for a cache hit. -/
theorem c6_counterexample :
    (create_google_sheet existingDocBackend t0 user5 [] qd0).1 =
      .ok "EXIST1" ∧
    (create_google_sheet existingDocBackend t0 user5 [] qd0).2 =
      [.filesList (searchQuery "kim"),
       .batchUpdate "EXIST1" (mkSheetName qd0 t0),
       .valuesUpdate "EXIST1" (mkSheetName qd0 t0 ++ "!A1:I1") [headers]] ∧
    RemoteCall.filesList (searchQuery "kim") ∈
      (create_google_sheet existingDocBackend t0 user5 [] qd0).2 :=
  ⟨rfl, rfl, by decide⟩

/-- C6 amended: within one `GoogleSheetsHandler` instance the index
behaves as claimed — a cached user resolves with zero remote calls; an
uncached user costs exactly one search, whose hit is cached, and when
the search finds nothing exactly one create-plus-permission-grant
sequence whose result is cached.  (The entry point, however, never
reuses a handler across exports — see the counterexample.) -/
theorem c6_handler_cache (be : Backend) (cache : List (Nat × String))
    (uid : Nat) (username : String) :
    (∀ sid, lookupCache cache uid = some sid →
      get_or_create_user_spreadsheet be cache uid username =
        (.ok sid, cache, [])) ∧
    (lookupCache cache uid = none →
      ∀ fid rest, be.listFiles (searchQuery username) = .ok (fid :: rest) →
      get_or_create_user_spreadsheet be cache uid username =
        (.ok fid, insertCache cache uid fid,
         [.filesList (searchQuery username)])) ∧
    (lookupCache cache uid = none →
      be.listFiles (searchQuery username) = .ok [] →
      ∀ nid, be.createSpreadsheet (title username) = .ok nid →
      be.createPermission nid = .ok () →
      get_or_create_user_spreadsheet be cache uid username =
        (.ok nid, insertCache cache uid nid,
         [.filesList (searchQuery username),
          .spreadsheetsCreate (title username),
          .permissionsCreate nid])) := by
  refine ⟨?_, ?_, ?_⟩
  · intro sid hl
    unfold get_or_create_user_spreadsheet
    simp [hl]
  · intro hl fid rest hs
    unfold get_or_create_user_spreadsheet find_user_spreadsheet
    simp [hl, hs]
  · intro hl hs nid hc hp
    unfold get_or_create_user_spreadsheet find_user_spreadsheet
    simp [hl, hs, hc, hp]

/-- C6 witness: the three handler-level cases evaluated on concrete
backends and caches. -/
theorem c6_witness :
    get_or_create_user_spreadsheet existingDocBackend [(9, "SID9")] 9 "ann" =
      (.ok "SID9", [(9, "SID9")], []) ∧
    get_or_create_user_spreadsheet existingDocBackend [] 9 "ann" =
      (.ok "EXIST1", insertCache [] 9 "EXIST1",
       [.filesList (searchQuery "ann")]) ∧
    get_or_create_user_spreadsheet okBackend [] 9 "ann" =
      (.ok "NEWSID", insertCache [] 9 "NEWSID",
       [.filesList (searchQuery "ann"), .spreadsheetsCreate (title "ann"),
        .permissionsCreate "NEWSID"]) :=
  ⟨(c6_handler_cache existingDocBackend [(9, "SID9")] 9 "ann").1 "SID9" rfl,
   (c6_handler_cache existingDocBackend [] 9 "ann").2.1 rfl "EXIST1" [] rfl,
   (c6_handler_cache okBackend [] 9 "ann").2.2 rfl rfl "NEWSID" rfl rfl⟩

/-! ### C7 -/

/-- `true` iff the record loop turns this record into a row (rather than
skipping it or raising). -/
def isRowRecord (r : String × CompanyData) : Bool :=
  match processRecord r.1 r.2 with
  | .ok (some _) => true
  | _ => false

/-- The row the record loop emits for a record (junk on non-row
records). -/
def rowOf (r : String × CompanyData) : List PyVal :=
  match processRecord r.1 r.2 with
  | .ok (some row) => row
  | _ => []

/-- When every record yields a row, the loop collects exactly the mapped
rows, in input order. -/
theorem buildRows_of_valid (data : List (String × CompanyData))
    (h : ∀ r ∈ data, isRowRecord r = true) :
    buildRows data = .ok (data.map rowOf) := by
  induction data with
  | nil => rfl
  | cons r rest ih =>
    have hr := h r (List.mem_cons_self r rest)
    have hrest := ih (fun x hx => h x (List.mem_cons_of_mem r hx))
    unfold isRowRecord at hr
    unfold buildRows
    cases hp : processRecord r.1 r.2 with
    | error e => rw [hp] at hr; simp at hr
    | ok o =>
      cases o with
      | none => rw [hp] at hr; simp at hr
      | some row =>
        rw [hrest]
        have hro : rowOf r = row := by unfold rowOf; rw [hp]
        simp only [List.map_cons, hro]
        rfl

/-- When the row loop succeeds, the call trace is exactly one addSheet
batchUpdate followed by one values.update over
`{sheet}!A1:I{len(values)}` carrying header plus rows. -/
theorem create_sheet_trace (be : Backend) (now : DateTime) (sid : String)
    (qd : QueryDetails) (data : List (String × CompanyData))
    (rows : List (List PyVal))
    (hok : be.batchUpdateAddSheet sid (mkSheetName qd now) = .ok ())
    (hrows : buildRows data = .ok rows) :
    (create_sheet_for_query be now sid qd data).2 =
      [.batchUpdate sid (mkSheetName qd now),
       .valuesUpdate sid
         (mkSheetName qd now ++ "!A1:I" ++ toString (headers :: rows).length)
         (headers :: rows)] := by
  unfold create_sheet_for_query
  simp only [hok, hrows]
  cases hv : be.valuesUpdate sid
      (mkSheetName qd now ++ "!A1:I" ++ toString (headers :: rows).length)
      (headers :: rows) <;> simp [hv]

/-- C7: for a list of N records each of which the loop turns into a row,
the export issues exactly one bulk write, of N+1 rows — the header first,
then the records' rows in input order — over a range that starts at `A1`
of the new worksheet. -/
theorem c7_single_bulk_write (be : Backend) (now : DateTime) (sid : String)
    (qd : QueryDetails) (data : List (String × CompanyData))
    (hok : be.batchUpdateAddSheet sid (mkSheetName qd now) = .ok ())
    (hvalid : ∀ r ∈ data, isRowRecord r = true) :
    (create_sheet_for_query be now sid qd data).2 =
      [.batchUpdate sid (mkSheetName qd now),
       .valuesUpdate sid
         (mkSheetName qd now ++ "!A1:I" ++ toString (data.length + 1))
         (headers :: data.map rowOf)] ∧
    (headers :: data.map rowOf).length = data.length + 1 ∧
    (headers :: data.map rowOf).head? = some headers := by
  refine ⟨?_, by simp, rfl⟩
  rw [create_sheet_trace be now sid qd data (data.map rowOf) hok
        (buildRows_of_valid data hvalid)]
  simp

/-- Two records the loop turns into rows: one TrustPilot tuple, one
Google Maps tuple. -/
def c7Data : List (String × CompanyData) :=
  [("TrustPilot",
    .tuple [.str "Acme", .str "acme.com", .strList ["a@x.com"], .str "555",
      .str "NYC", .str "4.5", .str "120", .str "Verified"]),
   ("Google Maps",
    .tuple [.str "Bistro", .str "b.com", .str "c@x.com", .str "777",
      .str "LA", .str "33"])]

/-- C7 witness: the bulk-write shape evaluated on two concrete valid
records against the all-succeeding backend. -/
theorem c7_witness :
    ((create_sheet_for_query okBackend t0 "SID" qd0 c7Data).2 =
      [.batchUpdate "SID" (mkSheetName qd0 t0),
       .valuesUpdate "SID"
         (mkSheetName qd0 t0 ++ "!A1:I" ++ toString (c7Data.length + 1))
         (headers :: c7Data.map rowOf)] ∧
    (headers :: c7Data.map rowOf).length = c7Data.length + 1 ∧
    (headers :: c7Data.map rowOf).head? = some headers) :=
  c7_single_bulk_write okBackend t0 "SID" qd0 c7Data rfl (by decide)

end GoogleSheets

namespace GoogleSheets

/-! ### C8 -/

/-- Truncation bound for `strTake`. -/
theorem strTake_length_le (s : String) (n : Nat) : (strTake s n).length ≤ n := by
  show (s.toList.take n).length ≤ n
  rw [List.length_take]
  exact Nat.min_le_left n s.toList.length

/-- C8: the worksheet name is
`"{category}-{country}-{city}-{timestamp}"` — each query detail
defaulting to `"Unknown"` — truncated to at most 50 characters, with the
timestamp formatted `YYYY-MM-DD_HH-MM-SS`; the spec's example instant
2024-01-02 03:04:05 with `{Spa, UK, London}` yields
`"Spa-UK-London-2024-01-02_03-04-05"`, and the addSheet call of
`create_sheet_for_query` is always issued under exactly this name. -/
theorem c8_worksheet_name :
    (∀ (qd : QueryDetails) (now : DateTime), mkSheetName qd now =
      strTake (optOr qd.category "Unknown" ++ "-" ++ optOr qd.country "Unknown"
        ++ "-" ++ optOr qd.city "Unknown" ++ "-" ++ strftime now) 50) ∧
    (∀ (qd : QueryDetails) (now : DateTime), (mkSheetName qd now).length ≤ 50) ∧
    strftime t0 = "2024-01-02_03-04-05" ∧
    mkSheetName qd0 t0 = "Spa-UK-London-2024-01-02_03-04-05" ∧
    (∀ (be : Backend) (now : DateTime) (sid : String) (qd : QueryDetails)
        (data : List (String × CompanyData)),
      ((create_sheet_for_query be now sid qd data).2).head? =
        some (.batchUpdate sid (mkSheetName qd now))) := by
  refine ⟨fun _ _ => rfl, fun qd now => strTake_length_le _ 50, rfl, rfl, ?_⟩
  intro be now sid qd data
  unfold create_sheet_for_query
  rcases hb : be.batchUpdateAddSheet sid (mkSheetName qd now) with _ | u
  · simp [hb]
  · rcases hr : buildRows data with e | rows
    · simp [hb, hr]
    · simp only [hb, hr]
      rcases hv : be.valuesUpdate sid
          (mkSheetName qd now ++ "!A1:I" ++ toString (headers :: rows).length)
          (headers :: rows) with _ | u2 <;>
        simp [hv]

/-! ### C9 -/

/-- A list of length 8 is an explicit 8-element list. -/
theorem exists_eight (xs : List PyVal) (h : xs.length = 8) :
    ∃ a b c d e f g k, xs = [a, b, c, d, e, f, g, k] := by
  rcases xs with _ | ⟨a, xs⟩
  · simp at h
  rcases xs with _ | ⟨b, xs⟩
  · simp at h
  rcases xs with _ | ⟨c, xs⟩
  · simp at h
  rcases xs with _ | ⟨d, xs⟩
  · simp at h
  rcases xs with _ | ⟨e, xs⟩
  · simp at h
  rcases xs with _ | ⟨f, xs⟩
  · simp at h
  rcases xs with _ | ⟨g, xs⟩
  · simp at h
  rcases xs with _ | ⟨k, xs⟩
  · simp at h
  have hx : xs = [] := by
    simp at h
    exact h
  subst hx
  exact ⟨a, b, c, d, e, f, g, k, rfl⟩

/-- The TrustPilot branch only looks at the padded tuple. -/
theorem processTP_padEq (fs gs : List PyVal)
    (h : padTuple fs 8 = padTuple gs 8) :
    processRecord "TrustPilot" (.tuple fs) =
      processRecord "TrustPilot" (.tuple gs) := by
  simp only [processRecord]
  rw [h]
  rfl

/-- Padding a tuple of at most 8 fields yields exactly 8 fields. -/
theorem padTuple_length (fs : List PyVal) (h : fs.length ≤ 8) :
    (padTuple fs 8).length = 8 := by
  unfold padTuple
  simp
  omega

/-- Every padded-in position holds `"N/A"`. -/
theorem padTuple_get_pad (fs : List PyVal) (i : Nat) (h1 : fs.length ≤ i)
    (h2 : i < 8) : (padTuple fs 8).get? i = some (.str "N/A") := by
  unfold padTuple
  rw [List.get?_eq_getElem?, List.getElem?_append_right h1]
  have hlt : i - fs.length < (List.replicate (8 - fs.length)
      (PyVal.str "N/A")).length := by
    simp
    omega
  rw [List.getElem?_eq_getElem hlt]
  simp

/-- The row the code emits for the 1-field tuple `(" Acme ",)`. -/
def c9Row : List PyVal :=
  [.str "TrustPilot", .str " Acme ", .str "N/A", .str "N/A", .str "N/A",
   .str "N/A", .str "N/A", .str "N/A", .str "N/A"]

/-- C9 counterexample: a TrustPilot tuple whose name field is
`" Acme "` is emitted with the whitespace intact — the `ljust` to the
string's own length is a no-op, nothing is trimmed. -/
theorem c9_counterexample :
    processRecord "TrustPilot" (.tuple [.str " Acme "]) = .ok (some c9Row) ∧
    c9Row.get? 1 = some (.str " Acme ") ∧
    (" Acme " : String).toList.head? = some ' ' ∧
    (" Acme " : String) ≠ "Acme" :=
  ⟨rfl, rfl, rfl, by decide⟩

/-- C9 amended: a TrustPilot tuple of at most 8 fields is padded with
`"N/A"` to 8 fields, list-typed e-mails are joined with `", "`, and
every field is stringified and passed through
`str(x).ljust(len(str(x)))` — a left-justification to the string's own
length, i.e. the identity — so each emitted field is exactly the
stringified input, with any leading or trailing whitespace preserved
rather than trimmed. -/
theorem c9_normalization (n w e p l ra rv v : PyVal) (fs : List PyVal)
    (hfs : fs.length ≤ 8) :
    processRecord "TrustPilot" (.tuple [n, w, e, p, l, ra, rv, v]) =
      .ok (some [.str "TrustPilot", .str (pyStr n), .str (pyStr w),
        .str (joinEmails e), .str (pyStr p), .str (pyStr l), .str (pyStr ra),
        .str (pyStr rv), .str (pyStr v)]) ∧
    (padTuple fs 8).length = 8 ∧
    (∀ i, fs.length ≤ i → i < 8 →
      (padTuple fs 8).get? i = some (.str "N/A")) ∧
    (∃ row, processRecord "TrustPilot" (.tuple fs) = .ok (some row) ∧
      row.length = 9) ∧
    (∀ s : String, ljust s s.length = s) := by
  refine ⟨processTP_eight n w e p l ra rv v, padTuple_length fs hfs,
    fun i h1 h2 => padTuple_get_pad fs i h1 h2, ?_, ljust_self⟩
  obtain ⟨a, b, c, d, e2, f, g, k, hpad⟩ :=
    exists_eight (padTuple fs 8) (padTuple_length fs hfs)
  have hgs : padTuple fs 8 = padTuple [a, b, c, d, e2, f, g, k] 8 := by
    rw [hpad]
    rfl
  rw [processTP_padEq fs [a, b, c, d, e2, f, g, k] hgs,
    processTP_eight a b c d e2 f g k]
  exact ⟨_, rfl, rfl⟩

/-- C9 witness: the amended statement evaluated on an 8-field tuple with
whitespace in the name and a list of two e-mails, and on a 1-field
tuple. -/
theorem c9_witness :
    (processRecord "TrustPilot"
      (.tuple [.str " Acme ", .str "w", .strList ["a@x.com", "b@x.com"],
        .str "p", .str "l", .str "ra", .str "rv", .str "v"]) =
      .ok (some [.str "TrustPilot", .str (pyStr (.str " Acme ")),
        .str (pyStr (.str "w")),
        .str (joinEmails (.strList ["a@x.com", "b@x.com"])),
        .str (pyStr (.str "p")), .str (pyStr (.str "l")),
        .str (pyStr (.str "ra")), .str (pyStr (.str "rv")),
        .str (pyStr (.str "v"))]) ∧
    (padTuple [.str "only"] 8).length = 8 ∧
    (∀ i, ([PyVal.str "only"] : List PyVal).length ≤ i → i < 8 →
      (padTuple [.str "only"] 8).get? i = some (.str "N/A")) ∧
    (∃ row, processRecord "TrustPilot" (.tuple [.str "only"]) =
      .ok (some row) ∧ row.length = 9) ∧
    (∀ s : String, ljust s s.length = s)) :=
  c9_normalization (.str " Acme ") (.str "w")
    (.strList ["a@x.com", "b@x.com"]) (.str "p") (.str "l") (.str "ra")
    (.str "rv") (.str "v") [.str "only"] (by decide)

/-! ### C10 -/

/-- A TrustPilot tuple of more than 8 fields raises the tuple-unpacking
`ValueError` (padding adds nothing, the 8-name unpacking fails). -/
theorem processTP_overlong (fs : List PyVal) (h : 8 < fs.length) :
    processRecord "TrustPilot" (.tuple fs) =
      .error (.valueError "too many values to unpack") := by
  rcases fs with _ | ⟨a1, fs⟩
  · simp at h
  rcases fs with _ | ⟨a2, fs⟩
  · simp at h
  rcases fs with _ | ⟨a3, fs⟩
  · simp at h
  rcases fs with _ | ⟨a4, fs⟩
  · simp at h
  rcases fs with _ | ⟨a5, fs⟩
  · simp at h
  rcases fs with _ | ⟨a6, fs⟩
  · simp at h
  rcases fs with _ | ⟨a7, fs⟩
  · simp at h
  rcases fs with _ | ⟨a8, fs⟩
  · simp at h
  rcases fs with _ | ⟨a9, fs⟩
  · simp at h
  have hp : padTuple (a1 :: a2 :: a3 :: a4 :: a5 :: a6 :: a7 :: a8 :: a9 :: fs)
      8 = a1 :: a2 :: a3 :: a4 :: a5 :: a6 :: a7 :: a8 :: a9 :: fs := by
    unfold padTuple
    have h0 : 8 - (a1 :: a2 :: a3 :: a4 :: a5 :: a6 :: a7 :: a8 :: a9 ::
        fs).length = 0 := by
      simp
    rw [h0]
    simp
  simp only [processRecord]
  rw [hp]
  rfl

/-- A Google Maps tuple of more than 6 fields raises the same
`ValueError`. -/
theorem processGM_overlong (gs : List PyVal) (h : 6 < gs.length) :
    processRecord "Google Maps" (.tuple gs) =
      .error (.valueError "too many values to unpack") := by
  rcases gs with _ | ⟨a1, gs⟩
  · simp at h
  rcases gs with _ | ⟨a2, gs⟩
  · simp at h
  rcases gs with _ | ⟨a3, gs⟩
  · simp at h
  rcases gs with _ | ⟨a4, gs⟩
  · simp at h
  rcases gs with _ | ⟨a5, gs⟩
  · simp at h
  rcases gs with _ | ⟨a6, gs⟩
  · simp at h
  rcases gs with _ | ⟨a7, gs⟩
  · simp at h
  have hp : padTuple (a1 :: a2 :: a3 :: a4 :: a5 :: a6 :: a7 :: gs) 6 =
      a1 :: a2 :: a3 :: a4 :: a5 :: a6 :: a7 :: gs := by
    unfold padTuple
    have h0 : 6 - (a1 :: a2 :: a3 :: a4 :: a5 :: a6 :: a7 :: gs).length =
        0 := by
      simp
    rw [h0]
    simp
  simp only [processRecord]
  rw [hp]
  rfl

/-- C10: the skip-and-warn path fires only for data that is neither a
tuple nor a dict; a TrustPilot tuple of more than 8 fields (or a Google
Maps tuple of more than 6) raises the unpacking `ValueError`, which
aborts the whole export — the trace stops at the addSheet call and no
bulk write is ever submitted. -/
theorem c10_overlong_aborts (fs gs : List PyVal) (h8 : 8 < fs.length)
    (h6 : 6 < gs.length) (be : Backend) (sid : String) (qd : QueryDetails)
    (now : DateTime) (rest : List (String × CompanyData))
    (hok : be.batchUpdateAddSheet sid (mkSheetName qd now) = .ok ()) :
    processRecord "TrustPilot" (.tuple fs) =
      .error (.valueError "too many values to unpack") ∧
    processRecord "Google Maps" (.tuple gs) =
      .error (.valueError "too many values to unpack") ∧
    (∀ src : String, processRecord src .other = .ok none) ∧
    (create_sheet_for_query be now sid qd
        (("TrustPilot", .tuple fs) :: rest)).1 =
      .error (.valueError "too many values to unpack") ∧
    (create_sheet_for_query be now sid qd
        (("TrustPilot", .tuple fs) :: rest)).2 =
      [.batchUpdate sid (mkSheetName qd now)] := by
  have htp := processTP_overlong fs h8
  have hbr : buildRows (("TrustPilot", .tuple fs) :: rest) =
      .error (.valueError "too many values to unpack") := by
    unfold buildRows
    rw [htp]
    rfl
  refine ⟨htp, processGM_overlong gs h6, fun _ => rfl, ?_, ?_⟩ <;>
  · unfold create_sheet_for_query
    simp only [hok, hbr]

/-- A 9-field TrustPilot tuple. -/
def fs9 : List PyVal :=
  [.str "1", .str "2", .str "3", .str "4", .str "5", .str "6", .str "7",
   .str "8", .str "9"]

/-- A 7-field Google Maps tuple. -/
def gs7 : List PyVal :=
  [.str "1", .str "2", .str "3", .str "4", .str "5", .str "6", .str "7"]

/-- C10 witness: the abort behavior evaluated on concrete overlong
tuples against the all-succeeding backend. -/
theorem c10_witness :
    (processRecord "TrustPilot" (.tuple fs9) =
      .error (.valueError "too many values to unpack") ∧
    processRecord "Google Maps" (.tuple gs7) =
      .error (.valueError "too many values to unpack") ∧
    (∀ src : String, processRecord src .other = .ok none) ∧
    (create_sheet_for_query okBackend t0 "SID" qd0
        [("TrustPilot", .tuple fs9)]).1 =
      .error (.valueError "too many values to unpack") ∧
    (create_sheet_for_query okBackend t0 "SID" qd0
        [("TrustPilot", .tuple fs9)]).2 =
      [.batchUpdate "SID" (mkSheetName qd0 t0)]) :=
  c10_overlong_aborts fs9 gs7 (by decide) (by decide) okBackend "SID" qd0
    t0 [] rfl

end GoogleSheets
